import Mathlib

/-!
Shallow embedding of the abp-npm process-supervision / protocol-bridging layer.

The sections below translate, function by function, the code of
* the response transformer (`transformMcpResponse`, `scaleImage`, `truncateText`),
* the debug-server process supervisor (`startAbp`, its readiness poll loop),
* the session watcher (the debounced change callback of `openSessionDb`),
* the session attacher (`openSessionDb`, `attachToAbp`),
* the stdin/stdout MCP bridge (`handleMessage` of `mcp-proxy.ts`),
into Lean.  External collaborators (the `sharp` image library, the filesystem,
HTTP, `JSON.parse`) are modelled as explicit oracles passed to the embedded
functions; JavaScript strings whose lengths matter are modelled as `List Char`.
-/

namespace Abp

/-! ### Response transformer: constants (transform.ts) -/

/-- `MAX_IMAGE_DIMENSION = 1568` (long-edge budget, in pixels). -/
def MAX_IMAGE_DIMENSION : ℝ := 1568

/-- `MAX_IMAGE_PIXELS = 1.15 * 1024 * 1024` (pixel-count budget, ≈1.15 megapixels). -/
def MAX_IMAGE_PIXELS : ℝ := 1.15 * 1024 * 1024

/-- `MAX_TEXT_LENGTH = 4000` (text budget, in characters). -/
def MAX_TEXT_LENGTH : ℕ := 4000

/-- The truncation marker `"\n... [truncated]"` appended by `truncateText`. -/
def truncationMarker : List Char := "\n... [truncated]".toList

/-! ### Text truncation (`truncateText` in transform.ts) -/

/-- `truncateText`: if the text fits in `MAX_TEXT_LENGTH` characters the item is
returned unchanged, otherwise the text is cut to the first `MAX_TEXT_LENGTH`
characters and the truncation marker is appended. -/
def truncateText (text : List Char) : List Char :=
  if text.length ≤ MAX_TEXT_LENGTH then text
  else text.take MAX_TEXT_LENGTH ++ truncationMarker

/-- C6: for every text content item the output has length at most
`4000 + (length of the marker)`; when the input is longer than 4000 characters
the output is exactly the first 4000 characters followed by the marker, and
otherwise the text passes through unchanged. -/
theorem truncateText_spec (t : List Char) :
    (truncateText t).length ≤ MAX_TEXT_LENGTH + truncationMarker.length
    ∧ (MAX_TEXT_LENGTH < t.length →
        truncateText t = t.take MAX_TEXT_LENGTH ++ truncationMarker)
    ∧ (t.length ≤ MAX_TEXT_LENGTH → truncateText t = t) := by
  refine ⟨?_, ?_, ?_⟩
  · by_cases h : t.length ≤ MAX_TEXT_LENGTH
    · simp only [truncateText, if_pos h]
      exact le_trans h (Nat.le_add_right _ _)
    · simp only [truncateText, if_neg h, List.length_append]
      exact Nat.add_le_add_right (List.length_take_le _ _) _
  · intro h
    simp only [truncateText, if_neg (not_le.mpr h)]
  · intro h
    simp only [truncateText, if_pos h]

/-- Witness for C6: a 4001-character text is truncated to its first 4000
characters plus the marker, and a short text passes through unchanged. -/
theorem truncateText_spec_witness :
    truncateText (List.replicate 4001 'a')
      = List.replicate 4000 'a' ++ truncationMarker
    ∧ truncateText "hi".toList = "hi".toList := by
  constructor
  · have h := (truncateText_spec (List.replicate 4001 'a')).2.1 (by
      rw [List.length_replicate]; norm_num [MAX_TEXT_LENGTH])
    rw [h, List.take_replicate]
    norm_num [MAX_TEXT_LENGTH]
  · refine (truncateText_spec "hi".toList).2.2 ?_
    have h2 : ("hi".toList).length = 2 := rfl
    rw [h2]; norm_num [MAX_TEXT_LENGTH]

/-! ### Image scaling (`scaleImage` in transform.ts)

`sharp` (decode, metadata inspection, webp re-encoding, resizing) is an
external library; it is modelled by the `SharpOracle` record of functions.
A `none` result of an oracle call models a thrown exception, which the
source catches by returning the original item. -/

/-- The shrink factor of `scaleImage`:
`Math.min(MAX_IMAGE_DIMENSION / width, MAX_IMAGE_DIMENSION / height,
Math.sqrt(MAX_IMAGE_PIXELS / pixels), 1)` where `pixels = width * height`. -/
noncomputable def shrink (w h : ℕ) : ℝ :=
  min (MAX_IMAGE_DIMENSION / (w : ℝ))
    (min (MAX_IMAGE_DIMENSION / (h : ℝ))
      (min (Real.sqrt (MAX_IMAGE_PIXELS / ((w : ℝ) * (h : ℝ)))) 1))

/-- The branch condition `shrink >= 1` of `scaleImage`, characterised by
integer comparisons (`10 * 1.15 * 1024 * 1024 = 12058624`). -/
theorem one_le_shrink_iff (w h : ℕ) :
    1 ≤ shrink w h ↔
      1 ≤ w ∧ 1 ≤ h ∧ w ≤ 1568 ∧ h ≤ 1568 ∧ 10 * (w * h) ≤ 12058624 := by
  unfold shrink
  rw [le_min_iff, le_min_iff, le_min_iff]
  constructor
  · rintro ⟨h1, h2, h3, -⟩
    have hw : 0 < w := by
      rcases Nat.eq_zero_or_pos w with hw0 | hw0
      · rw [hw0] at h1; norm_num [MAX_IMAGE_DIMENSION] at h1
      · exact hw0
    have hh : 0 < h := by
      rcases Nat.eq_zero_or_pos h with hh0 | hh0
      · rw [hh0] at h2; norm_num [MAX_IMAGE_DIMENSION] at h2
      · exact hh0
    have hwr : (0 : ℝ) < (w : ℝ) := by exact_mod_cast hw
    have hhr : (0 : ℝ) < (h : ℝ) := by exact_mod_cast hh
    have hwe : (w : ℝ) ≤ 1568 := by
      have := (one_le_div hwr).mp h1
      rw [MAX_IMAGE_DIMENSION] at this
      linarith
    have hhe : (h : ℝ) ≤ 1568 := by
      have := (one_le_div hhr).mp h2
      rw [MAX_IMAGE_DIMENSION] at this
      linarith
    have hpx : (w : ℝ) * (h : ℝ) ≤ MAX_IMAGE_PIXELS := by
      rw [Real.le_sqrt' one_pos, one_pow] at h3
      exact (one_le_div (by positivity)).mp h3
    refine ⟨hw, hh, ?_, ?_, ?_⟩
    · exact_mod_cast hwe
    · exact_mod_cast hhe
    · have h10 : (10 : ℝ) * ((w : ℝ) * (h : ℝ)) ≤ 12058624 := by
        rw [MAX_IMAGE_PIXELS] at hpx; linarith
      exact_mod_cast h10
  · rintro ⟨hw, hh, hwe, hhe, hpx⟩
    have hwr : (0 : ℝ) < (w : ℝ) := by exact_mod_cast hw
    have hhr : (0 : ℝ) < (h : ℝ) := by exact_mod_cast hh
    have hwe' : (w : ℝ) ≤ 1568 := by exact_mod_cast hwe
    have hhe' : (h : ℝ) ≤ 1568 := by exact_mod_cast hhe
    have hpx' : (10 : ℝ) * ((w : ℝ) * (h : ℝ)) ≤ 12058624 := by exact_mod_cast hpx
    refine ⟨?_, ?_, ?_, le_refl 1⟩
    · rw [MAX_IMAGE_DIMENSION]
      rw [one_le_div hwr]
      exact hwe'
    · rw [MAX_IMAGE_DIMENSION]
      rw [one_le_div hhr]
      exact hhe'
    · rw [Real.le_sqrt' one_pos, one_pow]
      rw [one_le_div (by positivity : (0 : ℝ) < (w : ℝ) * (h : ℝ))]
      rw [MAX_IMAGE_PIXELS]
      linarith

instance shrinkThresholdDecidable (w h : ℕ) : Decidable (1 ≤ shrink w h) :=
  decidable_of_iff _ (one_le_shrink_iff w h).symm

/-- Output width of a resize: `Math.round(meta.width * shrink)`. -/
noncomputable def scaledWidth (w h : ℕ) : ℤ := round ((w : ℝ) * shrink w h)

/-- Output height of a resize: `Math.round(meta.height * shrink)`. -/
noncomputable def scaledHeight (w h : ℕ) : ℤ := round ((h : ℝ) * shrink w h)

/-- Metadata reported by the image library; `width`/`height` may be absent. -/
structure SharpMeta where
  width : Option ℕ
  height : Option ℕ
deriving DecidableEq

/-- The calls `scaleImage` makes into the image library, as oracles.
`metadata` returning `none` models decoding throwing; `webpEncode` and
`resizeWebp` returning `none` model encoding throwing. -/
structure SharpOracle where
  metadata : String → Option SharpMeta
  webpEncode : String → Option String
  resizeWebp : String → ℤ → ℤ → Option String

/-- An image content item: base64 `data` plus `mimeType`.  Fields of the item
other than these two are untouched by the source (object spread). -/
structure ImageItem where
  data : String
  mimeType : String
deriving DecidableEq

/-- `scaleImage`: decode, inspect dimensions (falsy width or height — absent
or zero — passes the item through), branch on `shrink >= 1`, and on any
failure return the original item. -/
noncomputable def scaleImage (o : SharpOracle) (item : ImageItem) : ImageItem :=
  match o.metadata item.data with
  | none => item
  | some meta =>
    match meta.width, meta.height with
    | some w, some h =>
      if w = 0 ∨ h = 0 then item
      else
        if 1 ≤ shrink w h then
          if item.mimeType = "image/webp" then item
          else
            match o.webpEncode item.data with
            | none => item
            | some d => { item with data := d, mimeType := "image/webp" }
        else
          match o.resizeWebp item.data (scaledWidth w h) (scaledHeight w h) with
          | none => item
          | some d => { item with data := d, mimeType := "image/webp" }
    | _, _ => item

/-- C4: an image whose dimensions are at or under both budgets (so the shrink
factor is `≥ 1`) and which is already `image/webp` is returned unchanged. -/
theorem scaleImage_under_budget_webp_passthrough (o : SharpOracle)
    (item : ImageItem) (w h : ℕ)
    (hmeta : o.metadata item.data = some ⟨some w, some h⟩)
    (hw : 0 < w) (hh : 0 < h) (hwe : w ≤ 1568) (hhe : h ≤ 1568)
    (hpx : 10 * (w * h) ≤ 12058624)
    (hmime : item.mimeType = "image/webp") :
    1 ≤ shrink w h ∧ scaleImage o item = item := by
  have hs : 1 ≤ shrink w h := (one_le_shrink_iff w h).mpr ⟨hw, hh, hwe, hhe, hpx⟩
  have hz : ¬ (w = 0 ∨ h = 0) := by omega
  refine ⟨hs, ?_⟩
  unfold scaleImage
  rw [hmeta]
  simp only [if_neg hz, if_pos hs, if_pos hmime]

/-- Witness for C4: a concrete 800×600 webp item passes through unchanged. -/
theorem scaleImage_under_budget_webp_passthrough_witness :
    1 ≤ shrink 800 600
    ∧ scaleImage
        ⟨fun _ => some ⟨some 800, some 600⟩, fun _ => none, fun _ _ _ => none⟩
        ⟨"imgdata", "image/webp"⟩
      = ⟨"imgdata", "image/webp"⟩ :=
  scaleImage_under_budget_webp_passthrough
    ⟨fun _ => some ⟨some 800, some 600⟩, fun _ => none, fun _ _ _ => none⟩
    ⟨"imgdata", "image/webp"⟩ 800 600 rfl (by decide) (by decide) (by decide)
    (by decide) (by decide) rfl

theorem shrink_nonneg (w h : ℕ) : 0 ≤ shrink w h := by
  unfold shrink
  refine le_min ?_ (le_min ?_ (le_min ?_ ?_))
  · exact div_nonneg (by norm_num [MAX_IMAGE_DIMENSION]) (Nat.cast_nonneg w)
  · exact div_nonneg (by norm_num [MAX_IMAGE_DIMENSION]) (Nat.cast_nonneg h)
  · exact Real.sqrt_nonneg _
  · norm_num

theorem shrink_le_one (w h : ℕ) : shrink w h ≤ 1 := by
  unfold shrink
  exact le_trans (min_le_right _ _) (le_trans (min_le_right _ _) (min_le_right _ _))

theorem shrink_le_edge_w (w h : ℕ) : shrink w h ≤ MAX_IMAGE_DIMENSION / (w : ℝ) :=
  min_le_left _ _

theorem shrink_le_edge_h (w h : ℕ) : shrink w h ≤ MAX_IMAGE_DIMENSION / (h : ℝ) :=
  le_trans (min_le_right _ _) (min_le_left _ _)

theorem shrink_le_sqrt (w h : ℕ) :
    shrink w h ≤ Real.sqrt (MAX_IMAGE_PIXELS / ((w : ℝ) * (h : ℝ))) :=
  le_trans (min_le_right _ _) (le_trans (min_le_right _ _) (min_le_left _ _))

theorem round_le_int {x : ℝ} {n : ℤ} (h : x ≤ (n : ℝ)) : round x ≤ n := by
  have h1 : (round x : ℝ) ≤ x + 1 / 2 := round_le_add_half x
  have h2 : (round x : ℝ) < ((n + 1 : ℤ) : ℝ) := by push_cast; linarith
  have h3 : round x < n + 1 := by exact_mod_cast h2
  omega

theorem round_nonneg_of_nonneg {x : ℝ} (h : 0 ≤ x) : 0 ≤ round x := by
  rw [round_eq]
  exact Int.floor_nonneg.mpr (by linarith)

/-- C5: for an image exceeding the pixel or long-edge budget, the resize
target dimensions `Math.round(width * shrink)` and `Math.round(height * shrink)`
are nonnegative, both at most 1568, their product is at most
`1207431 = ⌈MAX_IMAGE_PIXELS + 1568.25⌉` (within 0.13% of the 1205862.4-pixel
budget), and neither exceeds the corresponding input dimension. -/
theorem scaled_dims_bounded (w h : ℕ) (hw : 0 < w) (hh : 0 < h)
    (hex : ¬ 1 ≤ shrink w h) :
    scaledWidth w h ≤ 1568 ∧ scaledHeight w h ≤ 1568
    ∧ 0 ≤ scaledWidth w h ∧ 0 ≤ scaledHeight w h
    ∧ scaledWidth w h * scaledHeight w h ≤ 1207431
    ∧ scaledWidth w h ≤ (w : ℤ) ∧ scaledHeight w h ≤ (h : ℤ) := by
  have hwr : (0 : ℝ) < (w : ℝ) := by exact_mod_cast hw
  have hhr : (0 : ℝ) < (h : ℝ) := by exact_mod_cast hh
  have hs0 : 0 ≤ shrink w h := shrink_nonneg w h
  have hs1 : shrink w h ≤ 1 := shrink_le_one w h
  have hsw : (w : ℝ) * shrink w h ≤ 1568 := by
    have h1 := shrink_le_edge_w w h
    rw [MAX_IMAGE_DIMENSION] at h1
    have h2 : (w : ℝ) * shrink w h ≤ (w : ℝ) * (1568 / (w : ℝ)) :=
      mul_le_mul_of_nonneg_left h1 (le_of_lt hwr)
    rwa [mul_div_cancel₀ _ (ne_of_gt hwr)] at h2
  have hsh : (h : ℝ) * shrink w h ≤ 1568 := by
    have h1 := shrink_le_edge_h w h
    rw [MAX_IMAGE_DIMENSION] at h1
    have h2 : (h : ℝ) * shrink w h ≤ (h : ℝ) * (1568 / (h : ℝ)) :=
      mul_le_mul_of_nonneg_left h1 (le_of_lt hhr)
    rwa [mul_div_cancel₀ _ (ne_of_gt hhr)] at h2
  have hprod : ((w : ℝ) * shrink w h) * ((h : ℝ) * shrink w h) ≤ MAX_IMAGE_PIXELS := by
    have hsq : shrink w h ^ 2 ≤ MAX_IMAGE_PIXELS / ((w : ℝ) * (h : ℝ)) := by
      have h1 := shrink_le_sqrt w h
      have h2 : shrink w h ^ 2 ≤
          Real.sqrt (MAX_IMAGE_PIXELS / ((w : ℝ) * (h : ℝ))) ^ 2 :=
        pow_le_pow_left₀ hs0 h1 2
      rwa [Real.sq_sqrt
        (div_nonneg (by norm_num [MAX_IMAGE_PIXELS]) (by positivity))] at h2
    have h3 : ((w : ℝ) * (h : ℝ)) * (shrink w h ^ 2) ≤
        ((w : ℝ) * (h : ℝ)) * (MAX_IMAGE_PIXELS / ((w : ℝ) * (h : ℝ))) :=
      mul_le_mul_of_nonneg_left hsq (by positivity)
    rw [mul_div_cancel₀ _ (by positivity : (w : ℝ) * (h : ℝ) ≠ 0)] at h3
    calc ((w : ℝ) * shrink w h) * ((h : ℝ) * shrink w h)
        = ((w : ℝ) * (h : ℝ)) * (shrink w h ^ 2) := by ring
      _ ≤ MAX_IMAGE_PIXELS := h3
  have hW1 : scaledWidth w h ≤ 1568 := by
    unfold scaledWidth
    exact round_le_int (by push_cast; linarith)
  have hH1 : scaledHeight w h ≤ 1568 := by
    unfold scaledHeight
    exact round_le_int (by push_cast; linarith)
  have hW0 : 0 ≤ scaledWidth w h :=
    round_nonneg_of_nonneg (by positivity)
  have hH0 : 0 ≤ scaledHeight w h :=
    round_nonneg_of_nonneg (by positivity)
  have hWle : (scaledWidth w h : ℝ) ≤ (w : ℝ) * shrink w h + 1 / 2 :=
    round_le_add_half _
  have hHle : (scaledHeight w h : ℝ) ≤ (h : ℝ) * shrink w h + 1 / 2 :=
    round_le_add_half _
  have hpx : scaledWidth w h * scaledHeight w h ≤ 1207431 := by
    have hW0r : (0 : ℝ) ≤ (scaledWidth w h : ℝ) := by exact_mod_cast hW0
    have hws0 : (0 : ℝ) ≤ (w : ℝ) * shrink w h + 1 / 2 := by positivity
    have hmul : (scaledWidth w h : ℝ) * (scaledHeight w h : ℝ) ≤
        ((w : ℝ) * shrink w h + 1 / 2) * ((h : ℝ) * shrink w h + 1 / 2) :=
      mul_le_mul hWle hHle (by exact_mod_cast hH0) hws0
    have hbound : ((w : ℝ) * shrink w h + 1 / 2) * ((h : ℝ) * shrink w h + 1 / 2)
        ≤ 1207431 := by
      have hP : MAX_IMAGE_PIXELS = 1205862.4 := by norm_num [MAX_IMAGE_PIXELS]
      nlinarith [hprod, hsw, hsh]
    have : (scaledWidth w h : ℝ) * (scaledHeight w h : ℝ) ≤ 1207431 :=
      le_trans hmul hbound
    exact_mod_cast this
  have hWup : scaledWidth w h ≤ (w : ℤ) := by
    unfold scaledWidth
    refine round_le_int ?_
    push_cast
    nlinarith [hs1, hwr]
  have hHup : scaledHeight w h ≤ (h : ℤ) := by
    unfold scaledHeight
    refine round_le_int ?_
    push_cast
    nlinarith [hs1, hhr]
  exact ⟨hW1, hH1, hW0, hH0, hpx, hWup, hHup⟩

/-- Witness for C5 at the over-budget input 3136×100. -/
theorem scaled_dims_bounded_witness :
    ¬ 1 ≤ shrink 3136 100
    ∧ (scaledWidth 3136 100 ≤ 1568 ∧ scaledHeight 3136 100 ≤ 1568
       ∧ 0 ≤ scaledWidth 3136 100 ∧ 0 ≤ scaledHeight 3136 100
       ∧ scaledWidth 3136 100 * scaledHeight 3136 100 ≤ 1207431
       ∧ scaledWidth 3136 100 ≤ (3136 : ℤ) ∧ scaledHeight 3136 100 ≤ (100 : ℤ)) :=
  ⟨by decide, scaled_dims_bounded 3136 100 (by decide) (by decide) (by decide)⟩

/-! ### Per-item dispatch and the content loop (`transformMcpResponse`) -/

/-- One content item of an MCP result: an image (with nonempty `data` handled
by `scaleImage`), a text item, or anything else. -/
inductive ContentItem where
  | image (img : ImageItem)
  | text (text : List Char)
  | other
deriving DecidableEq

/-- The per-item branch of the `for` loop in `transformMcpResponse`:
`item.type === "image" && item.data` (falsy, i.e. empty, `data` falls through
to the unchanged branch), `item.type === "text"`, else unchanged. -/
noncomputable def transformItem (o : SharpOracle) : ContentItem → ContentItem
  | .image img => if img.data = "" then .image img else .image (scaleImage o img)
  | .text t => .text (truncateText t)
  | .other => .other

/-- The `for` loop of `transformMcpResponse` over `result.content`: each item
is transformed and pushed, in order. -/
noncomputable def transformContent (o : SharpOracle) (items : List ContentItem) :
    List ContentItem :=
  items.map (transformItem o)

/-- C8: every failing oracle call — decode throwing (`metadata = none`),
metadata missing a dimension, or webp encoding failing in either branch —
makes `scaleImage` return the original item unchanged, and the content loop
always preserves the number of items. -/
theorem scaleImage_failure_passthrough (o : SharpOracle) (item : ImageItem)
    (items : List ContentItem) :
    (o.metadata item.data = none → scaleImage o item = item)
    ∧ (∀ m, o.metadata item.data = some m → (m.width = none ∨ m.height = none) →
        scaleImage o item = item)
    ∧ (∀ w h, o.metadata item.data = some ⟨some w, some h⟩ →
        o.webpEncode item.data = none →
        o.resizeWebp item.data (scaledWidth w h) (scaledHeight w h) = none →
        scaleImage o item = item)
    ∧ (transformContent o items).length = items.length := by
  refine ⟨?_, ?_, ?_, ?_⟩
  · intro hmeta
    unfold scaleImage
    rw [hmeta]
  · rintro ⟨mw, mh⟩ hmeta hmiss
    unfold scaleImage
    rw [hmeta]
    rcases hmiss with hmw | hmh
    · cases mw with
      | none => rfl
      | some w => simp at hmw
    · cases mh with
      | none => cases mw <;> rfl
      | some h => simp at hmh
  · intro w h hmeta henc hres
    unfold scaleImage
    rw [hmeta]
    by_cases hz : w = 0 ∨ h = 0
    · simp only [if_pos hz]
    · simp only [if_neg hz]
      by_cases hs : 1 ≤ shrink w h
      · simp only [if_pos hs]
        by_cases hm : item.mimeType = "image/webp"
        · simp only [if_pos hm]
        · simp only [if_neg hm, henc]
      · simp only [if_neg hs, hres]
  · unfold transformContent
    exact items.length_map _

/-- Witness for C8 at concrete failing oracles and a two-item content list. -/
theorem scaleImage_failure_passthrough_witness :
    scaleImage ⟨fun _ => none, fun _ => none, fun _ _ _ => none⟩ ⟨"x", "image/png"⟩
      = ⟨"x", "image/png"⟩
    ∧ scaleImage ⟨fun _ => some ⟨none, some 5⟩, fun _ => none, fun _ _ _ => none⟩
        ⟨"x", "image/png"⟩ = ⟨"x", "image/png"⟩
    ∧ scaleImage ⟨fun _ => some ⟨some 9000, some 9000⟩, fun _ => none, fun _ _ _ => none⟩
        ⟨"x", "image/png"⟩ = ⟨"x", "image/png"⟩
    ∧ (transformContent ⟨fun _ => none, fun _ => none, fun _ _ _ => none⟩
        [ContentItem.other, ContentItem.text []]).length = 2 :=
  ⟨(scaleImage_failure_passthrough _ ⟨"x", "image/png"⟩ []).1 rfl,
   (scaleImage_failure_passthrough _ ⟨"x", "image/png"⟩ []).2.1
     ⟨none, some 5⟩ rfl (Or.inl rfl),
   (scaleImage_failure_passthrough _ ⟨"x", "image/png"⟩ []).2.2.1
     9000 9000 rfl rfl rfl,
   (scaleImage_failure_passthrough
     ⟨fun _ => none, fun _ => none, fun _ _ _ => none⟩ ⟨"x", "image/png"⟩
     [ContentItem.other, ContentItem.text []]).2.2.2⟩

/-! ### Process supervisor (`startAbp` in the debug server)

The child process, the health probe and the filesystem are external; they are
modelled by `StartEnv`.  `tick i` is what the `i`-th iteration of the
readiness poll loop observes: whether the spawned process has exited
(`!abpProcess || abpProcess.exitCode !== null`) and whether `checkAbpStatus`
reports readiness.  The loop's 15-second ceiling (at a 300 ms poll interval)
is modelled by the iteration budget `fuel`.  Only the standard-error stream is
captured (`stdio: ["ignore", "ignore", "pipe"]`); `stderrOutput` is its
content at the moment the loop returns. -/

/-- What one poll-loop iteration observes. -/
structure PollTick where
  exited : Bool
  healthy : Bool

/-- The structured outcome of `startAbp` (the `error` strings of the source,
as a taxonomy).  `foreignInstanceRunning` is the "ABP is already running at
url" case of the spec taxonomy. -/
inductive StartOutcome where
  | ok
  | alreadyRunning
  | foreignInstanceRunning
  | binaryNotFound
  | spawnFailed
  | launchFailed (diag : List Char)
  | launchTimeout (diag : List Char)
deriving DecidableEq

/-- The observable result of a `startAbp` call: its outcome, whether a child
process was spawned, and whether a live supervised handle remains. -/
structure StartReport where
  outcome : StartOutcome
  spawned : Bool
  handleLive : Bool
deriving DecidableEq

/-- JavaScript `String.prototype.trim`. -/
def jsTrim (s : List Char) : List Char :=
  ((s.dropWhile Char.isWhitespace).reverse.dropWhile Char.isWhitespace).reverse

/-- The diagnostic hint attached to launch failures:
`stderrOutput.trim().slice(0, 200)`. -/
def launchDiag (stderrOutput : List Char) : List Char :=
  (jsTrim stderrOutput).take 200

/-- The readiness poll loop of `startAbp`: each iteration first checks whether
the process already exited (returning `LaunchFailed` with the stderr hint),
then probes health (returning success), otherwise sleeps 300 ms and loops;
when the 15-second ceiling elapses the process is killed, the handle cleared,
and `LaunchTimeout` returned. -/
def pollAbp (tick : ℕ → PollTick) (stderrOutput : List Char) :
    ℕ → ℕ → StartReport
  | 0, _ => ⟨.launchTimeout (launchDiag stderrOutput), true, false⟩
  | fuel + 1, i =>
    if (tick i).exited then ⟨.launchFailed (launchDiag stderrOutput), true, false⟩
    else if (tick i).healthy then ⟨.ok, true, true⟩
    else pollAbp tick stderrOutput fuel (i + 1)

/-- The environment a `startAbp` call runs against. -/
structure StartEnv where
  probeHealthy : Bool
  binaryExists : String → Bool
  spawnOk : Bool
  tick : ℕ → PollTick
  stderrOutput : List Char
  fuel : ℕ

/-- Supervisor state: whether `abpProcess` is a live handle
(`abpProcess && abpProcess.exitCode === null`). -/
structure SupervisorState where
  handleLive : Bool

/-- The launch configuration fields `startAbp` branches on. -/
structure LaunchConfig where
  sessionDir : String
  executablePath : Option String

/-- `startAbp`: rejects when a supervised handle is live, then when the health
probe already answers at the target endpoint, then when no binary path is
configured or the file is absent; otherwise spawns and runs the readiness
poll loop. -/
def startAbp (env : StartEnv) (st : SupervisorState) (config : LaunchConfig) :
    StartReport :=
  if st.handleLive then ⟨.alreadyRunning, false, st.handleLive⟩
  else if env.probeHealthy then ⟨.foreignInstanceRunning, false, st.handleLive⟩
  else
    match config.executablePath with
    | none => ⟨.binaryNotFound, false, st.handleLive⟩
    | some p =>
      if env.binaryExists p then
        if env.spawnOk then pollAbp env.tick env.stderrOutput env.fuel 0
        else ⟨.spawnFailed, false, st.handleLive⟩
      else ⟨.binaryNotFound, false, st.handleLive⟩

/-- C1: `startAbp` with a live supervised handle fails with `AlreadyRunning`
and spawns nothing; with no live handle but a healthy probe at the target
endpoint it fails with `ExternallyRunning` (`foreignInstanceRunning` here),
spawns nothing, and takes over no handle. -/
theorem startAbp_rejects_live_or_foreign (env : StartEnv) (st : SupervisorState)
    (config : LaunchConfig) :
    (st.handleLive = true →
      startAbp env st config = ⟨.alreadyRunning, false, true⟩)
    ∧ (st.handleLive = false → env.probeHealthy = true →
      startAbp env st config = ⟨.foreignInstanceRunning, false, false⟩) := by
  constructor
  · intro hlive
    unfold startAbp
    rw [hlive]
    rfl
  · intro hlive hprobe
    unfold startAbp
    rw [hlive, hprobe]
    rfl

/-- Witness for C1 at concrete states and environments. -/
theorem startAbp_rejects_live_or_foreign_witness :
    startAbp ⟨true, fun _ => true, true, fun _ => ⟨false, true⟩, [], 3⟩ ⟨true⟩
        ⟨"s", some "bin"⟩
      = ⟨.alreadyRunning, false, true⟩
    ∧ startAbp ⟨true, fun _ => true, true, fun _ => ⟨false, true⟩, [], 3⟩ ⟨false⟩
        ⟨"s", some "bin"⟩
      = ⟨.foreignInstanceRunning, false, false⟩ :=
  ⟨(startAbp_rejects_live_or_foreign _ ⟨true⟩ _).1 rfl,
   (startAbp_rejects_live_or_foreign _ ⟨false⟩ _).2 rfl rfl⟩

theorem pollAbp_never_healthy (tick : ℕ → PollTick) (stderrOutput : List Char)
    (hclean : ∀ i, (tick i).exited = false ∧ (tick i).healthy = false) :
    ∀ fuel i, pollAbp tick stderrOutput fuel i
      = ⟨.launchTimeout (launchDiag stderrOutput), true, false⟩ := by
  intro fuel
  induction fuel with
  | zero => intro i; rfl
  | succ n ih =>
    intro i
    unfold pollAbp
    rw [(hclean i).1, (hclean i).2]
    simpa using ih (i + 1)

theorem pollAbp_exit_before_healthy (tick : ℕ → PollTick)
    (stderrOutput : List Char) :
    ∀ fuel k i, k < fuel → (tick (i + k)).exited = true →
      (∀ j, j < k → (tick (i + j)).exited = false ∧ (tick (i + j)).healthy = false) →
      pollAbp tick stderrOutput fuel i
        = ⟨.launchFailed (launchDiag stderrOutput), true, false⟩ := by
  intro fuel
  induction fuel with
  | zero => intro k i hk; omega
  | succ n ih =>
    intro k i hk hexit hclean
    cases k with
    | zero =>
      have h : (tick i).exited = true := by simpa using hexit
      unfold pollAbp
      simp [h]
    | succ m =>
      have h0 := hclean 0 (Nat.succ_pos m)
      unfold pollAbp
      rw [show i + 0 = i from rfl] at h0
      rw [h0.1, h0.2]
      simp only [if_false, Bool.false_eq_true]
      have := ih m (i + 1) (by omega)
        (by rw [show i + 1 + m = i + (m + 1) from by omega]; exact hexit)
        (fun j hj => by
          rw [show i + 1 + j = i + (j + 1) from by omega]
          exact hclean (j + 1) (by omega))
      simpa using this

/-- C2: if the spawned process never becomes healthy within the ceiling,
`startAbp` returns `LaunchTimeout` after force-terminating the process, so no
supervised handle remains live; if the process exits before becoming healthy,
`startAbp` returns `LaunchFailed` whose diagnostic is
`stderrOutput.trim().slice(0, 200)` — at most 200 characters taken from the
error stream only. -/
theorem startAbp_timeout_or_early_exit (env : StartEnv) (st : SupervisorState)
    (config : LaunchConfig) (p : String)
    (hlive : st.handleLive = false) (hprobe : env.probeHealthy = false)
    (hpath : config.executablePath = some p)
    (hbin : env.binaryExists p = true) (hspawn : env.spawnOk = true) :
    ((∀ i, (env.tick i).exited = false ∧ (env.tick i).healthy = false) →
      startAbp env st config
        = ⟨.launchTimeout (launchDiag env.stderrOutput), true, false⟩)
    ∧ (∀ k, k < env.fuel → (env.tick k).exited = true →
        (∀ j, j < k → (env.tick j).exited = false ∧ (env.tick j).healthy = false) →
        startAbp env st config
          = ⟨.launchFailed (launchDiag env.stderrOutput), true, false⟩)
    ∧ (launchDiag env.stderrOutput).length ≤ 200 := by
  have hstart : startAbp env st config
      = pollAbp env.tick env.stderrOutput env.fuel 0 := by
    unfold startAbp
    rw [hlive, hprobe, hpath]
    simp only [Bool.false_eq_true, if_false, hbin, hspawn, if_true]
  refine ⟨?_, ?_, List.length_take_le _ _⟩
  · intro hclean
    rw [hstart]
    exact pollAbp_never_healthy env.tick env.stderrOutput hclean env.fuel 0
  · intro k hk hexit hclean
    rw [hstart]
    exact pollAbp_exit_before_healthy env.tick env.stderrOutput env.fuel k 0 hk
      (by simpa using hexit) (fun j hj => by simpa using hclean j hj)

/-- Witness for C2: a never-healthy run times out with no live handle, and an
immediate-exit run fails with the 200-character-capped stderr hint. -/
theorem startAbp_timeout_or_early_exit_witness :
    startAbp ⟨false, fun _ => true, true, fun _ => ⟨false, false⟩, "boom".toList, 3⟩
        ⟨false⟩ ⟨"s", some "bin"⟩
      = ⟨.launchTimeout (launchDiag "boom".toList), true, false⟩
    ∧ startAbp ⟨false, fun _ => true, true, fun _ => ⟨true, false⟩, "boom".toList, 3⟩
        ⟨false⟩ ⟨"s", some "bin"⟩
      = ⟨.launchFailed (launchDiag "boom".toList), true, false⟩
    ∧ (launchDiag "boom".toList).length ≤ 200 :=
  ⟨(startAbp_timeout_or_early_exit
      ⟨false, fun _ => true, true, fun _ => ⟨false, false⟩, "boom".toList, 3⟩
      ⟨false⟩ ⟨"s", some "bin"⟩ "bin" rfl rfl rfl rfl rfl).1
      (fun _ => ⟨rfl, rfl⟩),
   (startAbp_timeout_or_early_exit
      ⟨false, fun _ => true, true, fun _ => ⟨true, false⟩, "boom".toList, 3⟩
      ⟨false⟩ ⟨"s", some "bin"⟩ "bin" rfl rfl rfl rfl rfl).2.1
      0 (by decide) rfl (fun j hj => absurd hj (by omega)),
   (startAbp_timeout_or_early_exit
      ⟨false, fun _ => true, true, fun _ => ⟨true, false⟩, "boom".toList, 3⟩
      ⟨false⟩ ⟨"s", some "bin"⟩ "bin" rfl rfl rfl rfl rfl).2.2⟩

/-! ### Change watcher (the debounced callback installed by `openSessionDb`)

After the 200 ms quiet period the callback re-reads the maximum Action id
from the store and compares it with the stored watermark `lastMaxId`.  A read
may observe any value (debounced callbacks can arrive in any order and the
store is mutated externally), and a read may throw while the store is briefly
locked, which the source catches and ignores.  A fired callback is therefore
modelled by `Option ℕ`: `none` for a throwing read, `some n` for a read
observing maximum id `n`. -/

/-- One debounced watch callback: on a successful read of `newMaxId`, update
the watermark and notify subscribers only if it strictly exceeds `lastMaxId`;
a throwing read changes nothing. -/
def watchTick (lastMaxId : ℕ) (readResult : Option ℕ) : ℕ × Option ℕ :=
  match readResult with
  | none => (lastMaxId, none)
  | some newMaxId =>
    if newMaxId > lastMaxId then (newMaxId, some newMaxId) else (lastMaxId, none)

/-- A sequence of debounced callbacks, threading the watermark and collecting
the broadcast notifications in order. -/
def watchRun (lastMaxId : ℕ) : List (Option ℕ) → ℕ × List ℕ
  | [] => (lastMaxId, [])
  | r :: rs =>
    let step := watchTick lastMaxId r
    let rest := watchRun step.1 rs
    (rest.1, step.2.toList ++ rest.2)

/-- C3: across any sequence of debounced change-watch callbacks — any arrival
order, any observed values, including throwing reads — the stored watermark
never decreases, and a notification is emitted by a callback exactly when its
recomputed maximum strictly exceeds the stored watermark, in which case the
notified identifier is the new watermark. -/
theorem watermark_monotone (wm : ℕ) (reads : List (Option ℕ)) :
    wm ≤ (watchRun wm reads).1
    ∧ (∀ r n, (watchTick wm r).2 = some n → wm < n ∧ (watchTick wm r).1 = n)
    ∧ (∀ r, (watchTick wm r).2 = none → (watchTick wm r).1 = wm) := by
  refine ⟨?_, ?_, ?_⟩
  · induction reads generalizing wm with
    | nil => exact le_refl wm
    | cons r rs ih =>
      have hstep : wm ≤ (watchTick wm r).1 := by
        cases r with
        | none => exact le_refl wm
        | some v =>
          simp only [watchTick]
          by_cases hv : v > wm
          · rw [if_pos hv]; exact le_of_lt hv
          · rw [if_neg hv]
      exact le_trans hstep (ih (watchTick wm r).1)
  · intro r n hnotif
    cases r with
    | none => simp [watchTick] at hnotif
    | some v =>
      simp only [watchTick] at hnotif ⊢
      by_cases hv : v > wm
      · rw [if_pos hv] at hnotif ⊢
        cases hnotif
        exact ⟨hv, rfl⟩
      · rw [if_neg hv] at hnotif
        simp at hnotif
  · intro r hnone
    cases r with
    | none => rfl
    | some v =>
      simp only [watchTick] at hnone ⊢
      by_cases hv : v > wm
      · rw [if_pos hv] at hnone; simp at hnone
      · rw [if_neg hv]

/-- Witness for C3: a concrete out-of-order callback burst.  The watermark
climbs 3 → 7 and never decreases; the stale read 5 and the throwing read are
ignored, the read 7 is notified. -/
theorem watermark_monotone_witness :
    3 ≤ (watchRun 3 [some 7, some 5, none]).1
    ∧ (3 < 7 ∧ (watchTick 3 (some 7)).1 = 7)
    ∧ (watchTick 3 (some 2)).1 = 3 :=
  ⟨(watermark_monotone 3 [some 7, some 5, none]).1,
   (watermark_monotone 3 []).2.1 (some 7) 7 rfl,
   (watermark_monotone 3 []).2.2 (some 2) rfl⟩

/-! ### Session attacher (`openSessionDb` and `attachToAbp`)

The engine's session directory (the `history.db` store inside it and its
latest session row) is external state, modelled by `DirContent` per
directory.  Store and watcher handles are given generation numbers drawn from
a counter in the state, so that "the existing handle was kept" and "a fresh
handle was opened on the same directory" are distinguishable. -/

/-- A store or watcher handle: its generation and the directory it is open on. -/
structure DbHandle where
  gen : ℕ
  dir : String
deriving DecidableEq

/-- The attacher's mutable state: resolved directory, open read-only store,
current session id, watermark, active watcher, and the handle-generation
counter. -/
structure AttachState where
  currentSessionDir : String
  db : Option DbHandle
  sessionId : String
  lastMaxId : ℕ
  watcher : Option DbHandle
  nextGen : ℕ
deriving DecidableEq

/-- What a session directory currently holds: whether `history.db` exists,
the latest session row's id if any, and the maximum Action id of that session. -/
structure DirContent where
  dbExists : Bool
  session : Option String
  maxActionId : ℕ

/-- `openSessionDb sessionDir`: bail out if `history.db` is absent; otherwise
close any open store and open a fresh read-only one there; bail out (keeping
the fresh store but the old directory, watcher and watermark) if the store has
no session row; otherwise adopt the session, reset the watermark to the
current maximum Action id, record the directory, and restart the watcher on
it. -/
def openSessionDb (env : String → DirContent) (st : AttachState)
    (sessionDir : String) : AttachState × Bool :=
  let c := env sessionDir
  if c.dbExists then
    let st1 : AttachState :=
      { st with db := some ⟨st.nextGen, sessionDir⟩, nextGen := st.nextGen + 1 }
    match c.session with
    | none => (st1, false)
    | some sid =>
      let st2 : AttachState :=
        { st1 with
          sessionId := sid
          lastMaxId := c.maxActionId
          currentSessionDir := sessionDir }
      ({ st2 with
          watcher := some ⟨st2.nextGen, sessionDir⟩
          nextGen := st2.nextGen + 1 }, true)
  else (st, false)

/-- `attachToAbp`: resolve the session directory from the running engine
(`none` models an unreachable engine or a response without a directory, the
soft-failure path), then `openSessionDb` on it, broadcasting `session_changed`
on success. -/
def attachToAbp (env : String → DirContent) (resolved : Option String)
    (st : AttachState) : AttachState × Bool × List String :=
  match resolved with
  | none => (st, false, [])
  | some dir =>
    let r := openSessionDb env st dir
    if r.2 then (r.1, true, ["session_changed " ++ r.1.currentSessionDir])
    else (r.1, false, [])

/-- A state attached to directory `d` with store and watcher open, generation
counter at 2. -/
def attachedStateAtD : AttachState :=
  ⟨"d", some ⟨0, "d"⟩, "s1", 5, some ⟨1, "d"⟩, 2⟩

/-- An environment in which every directory holds a store with session `s1`. -/
def envWithSession : String → DirContent := fun _ => ⟨true, some "s1", 5⟩

/-- Counterexample to C9: with a store already open on directory `d`, an
attach that resolves the same directory `d` succeeds but does **not** leave
the existing handles in place — `attachToAbp` never compares the resolved
directory with the current one and unconditionally closes and reopens the
store and watcher (the directory-equality check exists only in the
`/control/status` handler). -/
theorem attach_same_dir_replaces_handles :
    attachedStateAtD.db.isSome = true
    ∧ attachedStateAtD.currentSessionDir = "d"
    ∧ (attachToAbp envWithSession (some "d") attachedStateAtD).2.1 = true
    ∧ (attachToAbp envWithSession (some "d") attachedStateAtD).1.db
        ≠ attachedStateAtD.db
    ∧ (attachToAbp envWithSession (some "d") attachedStateAtD).1.watcher
        ≠ attachedStateAtD.watcher := by
  refine ⟨rfl, rfl, rfl, ?_, ?_⟩ <;> decide

/-- C9 as amended: on every successful attach, `attachToAbp` closes the
existing store and watcher and opens fresh handles on the resolved directory,
whether or not it equals the currently open one; in particular (given that
previously issued handles have generation below the counter) the resulting
handles are never the previously open ones. -/
theorem attach_success_opens_fresh_handles (env : String → DirContent)
    (dir : String) (st : AttachState)
    (hsucc : (attachToAbp env (some dir) st).2.1 = true) :
    (attachToAbp env (some dir) st).1.db = some ⟨st.nextGen, dir⟩
    ∧ (attachToAbp env (some dir) st).1.watcher = some ⟨st.nextGen + 1, dir⟩
    ∧ (attachToAbp env (some dir) st).1.currentSessionDir = dir
    ∧ (∀ g d, st.db = some ⟨g, d⟩ → g < st.nextGen →
        (attachToAbp env (some dir) st).1.db ≠ st.db)
    ∧ (∀ g d, st.watcher = some ⟨g, d⟩ → g < st.nextGen →
        (attachToAbp env (some dir) st).1.watcher ≠ st.watcher) := by
  have hred : attachToAbp env (some dir) st
      = if (openSessionDb env st dir).2 = true
        then ((openSessionDb env st dir).1, true,
              ["session_changed " ++ (openSessionDb env st dir).1.currentSessionDir])
        else ((openSessionDb env st dir).1, false, []) := rfl
  have hored : openSessionDb env st dir
      = if (env dir).dbExists = true
        then (match (env dir).session with
              | none =>
                (⟨st.currentSessionDir, some ⟨st.nextGen, dir⟩, st.sessionId,
                  st.lastMaxId, st.watcher, st.nextGen + 1⟩, false)
              | some sid =>
                (⟨dir, some ⟨st.nextGen, dir⟩, sid, (env dir).maxActionId,
                  some ⟨st.nextGen + 1, dir⟩, st.nextGen + 1 + 1⟩, true))
        else (st, false) := rfl
  rw [hred] at hsucc
  by_cases h2 : (openSessionDb env st dir).2 = true
  · have hdb : (env dir).dbExists = true := by
      rw [hored] at h2
      by_contra hne
      rw [if_neg hne] at h2
      simp at h2
    obtain ⟨sid, hsess⟩ : ∃ sid, (env dir).session = some sid := by
      rw [hored, if_pos hdb] at h2
      cases hsess : (env dir).session with
      | none => rw [hsess] at h2; simp at h2
      | some s => exact ⟨s, rfl⟩
    have hopen : openSessionDb env st dir
        = (⟨dir, some ⟨st.nextGen, dir⟩, sid, (env dir).maxActionId,
            some ⟨st.nextGen + 1, dir⟩, st.nextGen + 1 + 1⟩, true) := by
      rw [hored, if_pos hdb, hsess]
    rw [hred, if_pos h2, hopen]
    refine ⟨rfl, rfl, rfl, ?_, ?_⟩
    · intro g d hst hg hcontra
      rw [hst] at hcontra
      have hgen : st.nextGen = g := congrArg DbHandle.gen (Option.some.inj hcontra)
      omega
    · intro g d hst hg hcontra
      rw [hst] at hcontra
      have hgen : st.nextGen + 1 = g := congrArg DbHandle.gen (Option.some.inj hcontra)
      omega
  · rw [if_neg h2] at hsucc
    simp at hsucc

/-- Witness for the amended C9 at a concrete attached state. -/
theorem attach_success_opens_fresh_handles_witness :
    (attachToAbp envWithSession (some "e") attachedStateAtD).1.db
        = some ⟨2, "e"⟩
    ∧ (attachToAbp envWithSession (some "e") attachedStateAtD).1.watcher
        = some ⟨3, "e"⟩
    ∧ (attachToAbp envWithSession (some "e") attachedStateAtD).1.currentSessionDir
        = "e"
    ∧ (attachToAbp envWithSession (some "e") attachedStateAtD).1.db
        ≠ attachedStateAtD.db :=
  ⟨(attach_success_opens_fresh_handles envWithSession "e" attachedStateAtD rfl).1,
   (attach_success_opens_fresh_handles envWithSession "e" attachedStateAtD rfl).2.1,
   (attach_success_opens_fresh_handles envWithSession "e" attachedStateAtD rfl).2.2.1,
   (attach_success_opens_fresh_handles envWithSession "e" attachedStateAtD rfl).2.2.2.1
     0 "d" rfl (by decide)⟩

/-! ### The stdin/stdout MCP bridge (`mcp-proxy.ts`)

`JSON.parse`, the browser launch and the HTTP forward are external; they are
modelled by the oracles in `BridgeEnv`.  `handleMessage` returns the next
bridge state together with the lines written to standard output and the log
lines written to standard error.  The JavaScript string slice in the
invalid-JSON log (`line.slice(0, 100)`) and the blank-line guard
(`line.trim()`) are modelled on the character list of the line. -/

/-- A parsed incoming JSON-RPC message: whether the `id` field is present
(`isRequest` in the source is `"id" in msg`), its value when present, and
`msg.method || ""`. -/
structure RpcMsg where
  hasId : Bool
  id : String
  method : String
deriving DecidableEq

/-- Bridge state: whether the `browser` handle is set, and the captured
`Mcp-Session-Id`. -/
structure BridgeState where
  browserLive : Bool
  mcpSessionId : Option String
deriving DecidableEq

/-- Result of `ensureBrowser` when it actually runs: the status probe found a
healthy instance to reuse (the `browser` handle stays unset), a launch
succeeded (the handle is set), or the launch threw. -/
inductive LaunchOutcome where
  | reusedExisting
  | launched
  | failed (errMsg : String)
deriving DecidableEq

/-- Result of `forwardToMcp`: the request errored or timed out, or a response
was received — `responseText` is the resolved body (`""` for a 202
no-content notification reply) and `sessionHeader` any `mcp-session-id`
response header. -/
inductive ForwardOutcome where
  | failed (errMsg : String)
  | replied (responseText : String) (sessionHeader : Option String)
deriving DecidableEq

/-- A line the bridge writes to standard output: an error reply
(`sendError`; an absent `id` — request id `undefined` — is dropped by
`JSON.stringify`, modelled by `none`) or a serialized transformed response. -/
inductive OutLine where
  | errorReply (id : Option String) (code : ℤ) (message : String)
  | result (text : String)
deriving DecidableEq

/-- The `id` that `sendError` would serialize for this message. -/
def msgIdOf (m : RpcMsg) : Option String :=
  if m.hasId then some m.id else none

/-- The external collaborators of `handleMessage`. -/
structure BridgeEnv where
  parse : String → Option RpcMsg
  launch : LaunchOutcome
  forward : String → ForwardOutcome
  renderResponse : String → Option String
  renderErrMsg : String

/-- `ensureBrowser`: no-op when the handle is set; otherwise reuse a healthy
instance, set the handle after a successful launch, or report the launch
error. -/
def ensureBrowser (launch : LaunchOutcome) (st : BridgeState) :
    BridgeState × Option String :=
  if st.browserLive then (st, none)
  else
    match launch with
    | .reusedExisting => (st, none)
    | .launched => ({ st with browserLive := true }, none)
    | .failed e => (st, some e)

/-- The log line for an unparseable input:
`"Invalid JSON: " + line.slice(0, 100)`. -/
def invalidJsonLog (line : String) : String :=
  "Invalid JSON: " ++ ⟨line.data.take 100⟩

/-- `handleMessage line`: parse (invalid JSON → log only), launch the engine
on the `"initialize"` handshake (failure → error reply), forward the raw
line, capture any session header, emit nothing for a no-content reply,
otherwise parse/transform/serialize the response; a forward or
response-parse failure becomes an error reply carrying the original request
id for a request and a log line for a notification. -/
def handleMessage (env : BridgeEnv) (st : BridgeState) (line : String) :
    BridgeState × List OutLine × List String :=
  match env.parse line with
  | none => (st, [], [invalidJsonLog line])
  | some msg =>
    match (if msg.method = "initialize" then ensureBrowser env.launch st
           else (st, none)) with
    | (st1, some e) =>
      (st1, [.errorReply (msgIdOf msg) (-32000) ("Failed to launch ABP: " ++ e)], [])
    | (st1, none) =>
      match env.forward line with
      | .failed e =>
        if msg.hasId then
          (st1, [.errorReply (msgIdOf msg) (-32000) ("Proxy error: " ++ e)], [])
        else (st1, [], ["Error forwarding notification: " ++ e])
      | .replied responseText hdr =>
        match (match hdr with
               | some s => { st1 with mcpSessionId := some s }
               | none => st1) with
        | st2 =>
          if responseText = "" then (st2, [], [])
          else
            match env.renderResponse responseText with
            | some out => (st2, [.result out], [])
            | none =>
              if msg.hasId then
                (st2, [.errorReply (msgIdOf msg) (-32000)
                        ("Proxy error: " ++ env.renderErrMsg)], [])
              else (st2, [], ["Error forwarding notification: " ++ env.renderErrMsg])

/-- The `readline` loop: lines whose trimmed content is empty are skipped
(`if (line.trim()) handleMessage(line)`); every other line is handled in
order, threading the bridge state and concatenating outputs and logs. -/
def processLines (env : BridgeEnv) (st : BridgeState) :
    List String → BridgeState × List OutLine × List String
  | [] => (st, [], [])
  | l :: ls =>
    if jsTrim l.data = [] then processLines env st ls
    else
      ((processLines env (handleMessage env st l).1 ls).1,
       (handleMessage env st l).2.1
         ++ (processLines env (handleMessage env st l).1 ls).2.1,
       (handleMessage env st l).2.2
         ++ (processLines env (handleMessage env st l).1 ls).2.2)

/-- C7: when forwarding a message fails (and the `"initialize"` launch step,
if taken, did not itself fail), a request — a message with an `id` field —
produces exactly one output line, an error reply carrying the original id
and the generic code `-32000`; a notification produces no output line and
exactly one log line. -/
theorem forward_failure_reply (env : BridgeEnv) (st : BridgeState)
    (line : String) (msg : RpcMsg) (e : String)
    (hp : env.parse line = some msg)
    (hl : msg.method = "initialize" → (ensureBrowser env.launch st).2 = none)
    (hf : env.forward line = .failed e) :
    (msg.hasId = true →
      (handleMessage env st line).2.1
        = [.errorReply (some msg.id) (-32000) ("Proxy error: " ++ e)]
      ∧ (handleMessage env st line).2.2 = [])
    ∧ (msg.hasId = false →
      (handleMessage env st line).2.1 = []
      ∧ (handleMessage env st line).2.2 = ["Error forwarding notification: " ++ e]) := by
  have hnofail : (if msg.method = "initialize" then ensureBrowser env.launch st
      else (st, none)).2 = none := by
    by_cases hm : msg.method = "initialize"
    · rw [if_pos hm]; exact hl hm
    · rw [if_neg hm]
  rcases hstep : (if msg.method = "initialize" then ensureBrowser env.launch st
      else (st, none)) with ⟨st1, r⟩
  rw [hstep] at hnofail
  have hr : r = none := hnofail
  subst hr
  constructor
  · intro hid
    have hmsgid : msgIdOf msg = some msg.id := by
      unfold msgIdOf; rw [if_pos hid]
    constructor
    · simp only [handleMessage, hp, hstep, hf, hid, if_true, hmsgid]
    · simp only [handleMessage, hp, hstep, hf, hid, if_true]
  · intro hid
    constructor
    · simp only [handleMessage, hp, hstep, hf, hid, Bool.false_eq_true, if_false]
    · simp only [handleMessage, hp, hstep, hf, hid, Bool.false_eq_true, if_false]

/-- Witness for C7: a failing forward of a concrete request yields exactly the
error reply with its id, and of a concrete notification only a log line. -/
theorem forward_failure_reply_witness :
    (handleMessage
        ⟨fun _ => some ⟨true, "7", "tools/call"⟩, .launched,
         fun _ => .failed "ECONNREFUSED", fun _ => none, "bad json"⟩
        ⟨false, none⟩ "req").2.1
      = [.errorReply (some "7") (-32000) ("Proxy error: " ++ "ECONNREFUSED")]
    ∧ (handleMessage
        ⟨fun _ => some ⟨false, "", "notifications/progress"⟩, .launched,
         fun _ => .failed "ECONNREFUSED", fun _ => none, "bad json"⟩
        ⟨false, none⟩ "notif").2.2
      = ["Error forwarding notification: " ++ "ECONNREFUSED"] :=
  ⟨((forward_failure_reply
      ⟨fun _ => some ⟨true, "7", "tools/call"⟩, .launched,
       fun _ => .failed "ECONNREFUSED", fun _ => none, "bad json"⟩
      ⟨false, none⟩ "req" ⟨true, "7", "tools/call"⟩ "ECONNREFUSED"
      rfl (fun hm => by simp at hm) rfl).1 rfl).1,
   ((forward_failure_reply
      ⟨fun _ => some ⟨false, "", "notifications/progress"⟩, .launched,
       fun _ => .failed "ECONNREFUSED", fun _ => none, "bad json"⟩
      ⟨false, none⟩ "notif" ⟨false, "", "notifications/progress"⟩ "ECONNREFUSED"
      rfl (fun hm => by simp at hm) rfl).2 rfl).2⟩

/-- C10: an input line that is not valid JSON produces no output line, exactly
one log line, and leaves the bridge state — engine handle and session token —
unchanged; the loop then continues with the remaining lines exactly as if the
bad line had contributed only its log entry. -/
theorem invalid_json_line_ignored (env : BridgeEnv) (st : BridgeState)
    (line : String) (rest : List String)
    (hbad : env.parse line = none) :
    handleMessage env st line = (st, [], [invalidJsonLog line])
    ∧ (jsTrim line.data ≠ [] →
        processLines env st (line :: rest)
          = ((processLines env st rest).1,
             (processLines env st rest).2.1,
             invalidJsonLog line :: (processLines env st rest).2.2)) := by
  have hmsg : handleMessage env st line = (st, [], [invalidJsonLog line]) := by
    unfold handleMessage
    rw [hbad]
  refine ⟨hmsg, ?_⟩
  intro hne
  have hcons : processLines env st (line :: rest)
      = if jsTrim line.data = [] then processLines env st rest
        else
          ((processLines env (handleMessage env st line).1 rest).1,
           (handleMessage env st line).2.1
             ++ (processLines env (handleMessage env st line).1 rest).2.1,
           (handleMessage env st line).2.2
             ++ (processLines env (handleMessage env st line).1 rest).2.2) := rfl
  rw [hcons, if_neg hne, hmsg]
  rfl

/-- Witness for C10: a concrete malformed line logs once, writes nothing, and
does not disturb the processing of the following line. -/
theorem invalid_json_line_ignored_witness :
    handleMessage
        ⟨fun l => if l = "ok" then some ⟨false, "", "m"⟩ else none,
         .launched, fun _ => .replied "" none, fun _ => none, "bad"⟩
        ⟨true, some "tok"⟩ "oops"
      = (⟨true, some "tok"⟩, [], [invalidJsonLog "oops"])
    ∧ processLines
        ⟨fun l => if l = "ok" then some ⟨false, "", "m"⟩ else none,
         .launched, fun _ => .replied "" none, fun _ => none, "bad"⟩
        ⟨true, some "tok"⟩ ["oops", "ok"]
      = (⟨true, some "tok"⟩, [], [invalidJsonLog "oops"]) := by
  have h := invalid_json_line_ignored
    ⟨fun l => if l = "ok" then some ⟨false, "", "m"⟩ else none,
     .launched, fun _ => .replied "" none, fun _ => none, "bad"⟩
    ⟨true, some "tok"⟩ "oops" ["ok"] (by decide)
  refine ⟨h.1, ?_⟩
  rw [h.2 (by decide)]
  decide

end Abp
